import Mathlib

/-!
Verification of the suspicious-transaction-pattern detection and risk-scoring
engine of the AegisShield batch-analysis service
(`services/batch-analysis/src/main.py`, `BatchAnalysisService.analyze_suspicious_patterns`).

The embedding models exact numeric values as rationals (`ℚ`): transaction
amounts, timestamps (seconds), risk scores and percentages.  On every
comparison and formula appearing in the claims the rational semantics agrees
with the double-precision semantics of the source (in particular
`10000 * 0.9 == 9000.0` and `4 * 0.2 == 0.8` hold exactly in doubles).
The external SQL fetch (`timestamp BETWEEN start AND end`, optional
`amount >= threshold_amount`) is modelled as a filter over an abstract store;
`analysis_id` and `created_at`, produced from the wall clock in the source,
are passed in as parameters.  Python's `round` is modelled as round-half-even.
-/

set_option maxRecDepth 8000

namespace BatchAnalysis

attribute [local semireducible] Rat.add Rat.mul Rat.sub Rat.inv

/-- The pattern `type` strings of `analyze_suspicious_patterns`. -/
inductive PatternType
  | rapid_succession
  | round_number_bias
  | potential_structuring
deriving DecidableEq

/-- One row of the `transactions` query result (the columns the detection uses). -/
structure Transaction where
  id : Nat
  sender_id : Nat
  receiver_id : Nat
  amount : ℚ
  timestamp : ℚ
deriving DecidableEq

/-- One entry of the `patterns` list (the dict fields the rules populate;
`entity_id` and `percentage` are optional because only some rules set them). -/
structure PatternFinding where
  type : PatternType
  entity_id : Option Nat
  count : Nat
  percentage : Option ℚ
  risk_score : ℚ
deriving DecidableEq

/-- `BatchAnalysisRequest` (pydantic model, lines 37-44 of `main.py`). -/
structure BatchAnalysisRequest where
  start_date : ℚ
  end_date : ℚ
  analysis_type : String
  entity_types : Option (List String)
  threshold_amount : Option ℚ
  confidence_threshold : Option ℚ
deriving DecidableEq

/-- `BatchAnalysisResult` (pydantic model, lines 46-58 of `main.py`). -/
structure BatchAnalysisResult where
  analysis_id : String
  analysis_type : String
  start_date : ℚ
  end_date : ℚ
  total_entities : Nat
  flagged_entities : Nat
  suspicious_transactions : Nat
  risk_score : ℚ
  patterns_detected : List PatternFinding
  recommendations : List String
  created_at : ℚ
deriving DecidableEq

/-- The four values accepted by the `analysis_type` regex
`^(suspicious_patterns|network_analysis|anomaly_detection|compliance_check)$`. -/
def validAnalysisTypes : List String :=
  ["suspicious_patterns", "network_analysis", "anomaly_detection", "compliance_check"]

/-- The only request validation the pydantic model performs: the
`analysis_type` regex.  No relation between `start_date` and `end_date`
is checked anywhere in the source. -/
def validRequest (r : BatchAnalysisRequest) : Bool :=
  validAnalysisTypes.contains r.analysis_type

/-- The SQL query of lines 76-89: rows with `timestamp BETWEEN start_date AND
end_date` and, when `threshold_amount` is not NULL, `amount >= threshold_amount`. -/
def fetchTransactions (r : BatchAnalysisRequest) (store : List Transaction) :
    List Transaction :=
  store.filter fun t =>
    decide (r.start_date ≤ t.timestamp) && decide (t.timestamp ≤ r.end_date) &&
      match r.threshold_amount with
      | none => true
      | some m => decide (m ≤ t.amount)

/-- Insert a transaction into a timestamp-sorted list (auxiliary for the sort). -/
def insertByTime (t : Transaction) : List Transaction → List Transaction
  | [] => [t]
  | u :: us => if t.timestamp ≤ u.timestamp then t :: u :: us else u :: insertByTime t us

/-- `df = df.sort_values('timestamp')` (line 114): sort ascending by timestamp. -/
def sortByTimestamp : List Transaction → List Transaction
  | [] => []
  | t :: ts => insertByTime t (sortByTimestamp ts)

/-- Auxiliary for `dedupFirst`: drop the values already seen. -/
def dedupFirstAux (seen : List Nat) : List Nat → List Nat
  | [] => []
  | a :: as => if a ∈ seen then dedupFirstAux seen as else a :: dedupFirstAux (a :: seen) as

/-- `pandas.Series.unique`: the distinct values in order of first appearance. -/
def dedupFirst (l : List Nat) : List Nat := dedupFirstAux [] l

/-- `df[df['sender_id'] == entity]` on the (sorted) frame `df`. -/
def senderTxns (df : List Transaction) (s : Nat) : List Transaction :=
  df.filter fun t => decide (t.sender_id = s)

/-- `entity_txns['timestamp'].diff()` without the leading NaN: the list of
consecutive timestamp differences, in seconds. -/
def timeGaps (txns : List Transaction) : List ℚ :=
  List.zipWith (fun a b => a - b) (txns.map (·.timestamp)).tail (txns.map (·.timestamp))

/-- `(time_diffs < 300).sum()` (line 120): the number of consecutive gaps
strictly below 300 seconds; pandas' leading NaN compares false and is dropped
by `timeGaps`. -/
def rapidGapCount (txns : List Transaction) : Nat :=
  (timeGaps txns).countP fun d => decide (d < 300)

/-- Lines 116-129: the rapid-succession finding for one sender, when the
sender has at least 5 transactions and at least 3 rapid gaps. -/
def rapidFinding (df : List Transaction) (s : Nat) : Option PatternFinding :=
  if 5 ≤ (senderTxns df s).length then
    if 3 ≤ rapidGapCount (senderTxns df s) then
      some { type := PatternType.rapid_succession
             entity_id := some s
             count := rapidGapCount (senderTxns df s)
             percentage := none
             risk_score := min (9/10) ((rapidGapCount (senderTxns df s) : ℚ) * (2/10)) }
    else none
  else none

/-- The loop `for entity in df['sender_id'].unique()` (lines 116-129). -/
def rapidFindings (df : List Transaction) : List PatternFinding :=
  (dedupFirst (df.map (·.sender_id))).filterMap (rapidFinding df)

/-- `amount % 1000 == 0` for exact numerics: the amount is an integer
multiple of 1000. -/
def isRoundAmount (a : ℚ) : Bool := a.den == 1 && a.num % 1000 == 0

/-- `len(round_amounts)` (line 132). -/
def roundCount (df : List Transaction) : Nat :=
  (df.filter fun t => isRoundAmount t.amount).length

/-- Round-half-even to the nearest integer (Python's `round` on exact values). -/
def roundHalfEven (q : ℚ) : ℤ :=
  if q - ⌊q⌋ < 1/2 then ⌊q⌋
  else if (1:ℚ)/2 < q - ⌊q⌋ then ⌊q⌋ + 1
  else if ⌊q⌋ % 2 = 0 then ⌊q⌋ else ⌊q⌋ + 1

/-- `round(q, n)`: round-half-even to `n` decimal places. -/
def roundTo (n : Nat) (q : ℚ) : ℚ := (roundHalfEven (q * 10 ^ n) : ℚ) / 10 ^ n

/-- Lines 131-140: the population-level round-number-bias finding, emitted when
the round-amount count strictly exceeds 10% of the transaction count. -/
def roundFindings (df : List Transaction) : List PatternFinding :=
  if (df.length : ℚ) * (1/10) < (roundCount df : ℚ) then
    [{ type := PatternType.round_number_bias
       entity_id := none
       count := roundCount df
       percentage := some (roundTo 2 ((roundCount df : ℚ) / (df.length : ℚ) * 100))
       risk_score := 6/10 }]
  else []

/-- `structuring_threshold = 10000` (line 143). -/
def structuring_threshold : ℚ := 10000

/-- Line 144-145: `amount >= structuring_threshold * 0.9 and amount < structuring_threshold`. -/
def inStructuringBand (a : ℚ) : Bool :=
  decide (structuring_threshold * (9/10) ≤ a) && decide (a < structuring_threshold)

/-- `len(near_threshold)` (line 147). -/
def structuringCount (df : List Transaction) : Nat :=
  (df.filter fun t => inStructuringBand t.amount).length

/-- Lines 142-153: the potential-structuring finding, emitted when the
near-threshold count is positive. -/
def structuringFindings (df : List Transaction) : List PatternFinding :=
  if 0 < structuringCount df then
    [{ type := PatternType.potential_structuring
       entity_id := none
       count := structuringCount df
       percentage := none
       risk_score := 8/10 }]
  else []

/-- Lines 109-153: sort by timestamp, then run the three detection rules in
order, appending their findings to `patterns`. -/
def detect (txns : List Transaction) : List PatternFinding :=
  rapidFindings (sortByTimestamp txns) ++ roundFindings (sortByTimestamp txns) ++
    structuringFindings (sortByTimestamp txns)

/-- Lines 155-157: `np.mean(risk_scores) if risk_scores else 0.0`. -/
def aggregate (findings : List PatternFinding) : ℚ :=
  if findings.isEmpty then 0
  else (findings.map (·.risk_score)).sum / (findings.length : ℚ)

/-- Recommendation text of line 162. -/
def immediateLine : String := "Immediate investigation recommended for high-risk patterns"

/-- Recommendation text of line 164. -/
def monitoringLine : String := "Enhanced monitoring suggested for identified entities"

/-- Recommendation text of line 167. -/
def rapidReviewLine : String := "Review rapid transaction entities for potential automation"

/-- Recommendation text of line 170. -/
def structuringInvLine : String := "Investigate potential structuring activities"

/-- Lines 159-170: the recommendation list, in source order: one of the two
risk banners (`if overall_risk > 0.7 ... elif overall_risk > 0.5`), then the
rapid-succession line, then the structuring line. -/
def recommend (overall_risk : ℚ) (patterns : List PatternFinding) : List String :=
  (if (7:ℚ)/10 < overall_risk then [immediateLine]
   else if (1:ℚ)/2 < overall_risk then [monitoringLine]
   else [])
  ++ (if patterns.any fun p => decide (p.type = PatternType.rapid_succession) then
        [rapidReviewLine] else [])
  ++ (if patterns.any fun p => decide (p.type = PatternType.potential_structuring) then
        [structuringInvLine] else [])

/-- Lines 94-107: the zero-valued success result returned when the fetched
frame is empty. -/
def emptyResult (r : BatchAnalysisRequest) (analysisId : String) (createdAt : ℚ) :
    BatchAnalysisResult :=
  { analysis_id := analysisId
    analysis_type := "suspicious_patterns"
    start_date := r.start_date
    end_date := r.end_date
    total_entities := 0
    flagged_entities := 0
    suspicious_transactions := 0
    risk_score := 0
    patterns_detected := []
    recommendations := []
    created_at := createdAt }

/-- Lines 69-184, `analyze_suspicious_patterns`: fetch, empty-frame
short-circuit, detection, aggregation, recommendations, envelope.
`analysisId` and `createdAt` stand for the wall-clock-derived values. -/
def analyze_suspicious_patterns (r : BatchAnalysisRequest) (store : List Transaction)
    (analysisId : String) (createdAt : ℚ) : BatchAnalysisResult :=
  if (fetchTransactions r store).isEmpty then emptyResult r analysisId createdAt
  else
    { analysis_id := analysisId
      analysis_type := "suspicious_patterns"
      start_date := r.start_date
      end_date := r.end_date
      total_entities :=
        (dedupFirst ((sortByTimestamp (fetchTransactions r store)).map (·.sender_id))).length
      flagged_entities :=
        (dedupFirst ((detect (fetchTransactions r store)).filterMap (·.entity_id))).length
      suspicious_transactions := (fetchTransactions r store).length
      risk_score := roundTo 3 (aggregate (detect (fetchTransactions r store)))
      patterns_detected := detect (fetchTransactions r store)
      recommendations :=
        recommend (aggregate (detect (fetchTransactions r store)))
          (detect (fetchTransactions r store))
      created_at := createdAt }

/-- A sender (#7) with exactly 5 transactions spaced 100 seconds apart. -/
def demoRapid : List Transaction :=
  [⟨1, 7, 8, 50, 0⟩, ⟨2, 7, 8, 50, 100⟩, ⟨3, 7, 8, 50, 200⟩,
   ⟨4, 7, 8, 50, 300⟩, ⟨5, 7, 8, 50, 400⟩]

/-- A sender (#7) with 5 transactions but only 2 gaps below 300 seconds. -/
def demoSlow : List Transaction :=
  [⟨1, 7, 8, 50, 0⟩, ⟨2, 7, 8, 50, 100⟩, ⟨3, 7, 8, 50, 200⟩,
   ⟨4, 7, 8, 50, 10000⟩, ⟨5, 7, 8, 50, 20000⟩]

/-- 100 transactions from 100 distinct senders, the first `k` of them with the
round amount 1000 and the rest with amount 777. -/
def demoRound (k : Nat) : List Transaction :=
  (List.range 100).map fun i => ⟨i, i, i + 1, if i < k then 1000 else 777, (i : ℚ)⟩

/-- A finding carrying a given risk score (used to exercise the aggregator). -/
def demoFinding (q : ℚ) : PatternFinding :=
  { type := PatternType.round_number_bias, entity_id := none, count := 0,
    percentage := none, risk_score := q }

/-- A request whose `end_date` precedes its `start_date`. -/
def badRequest : BatchAnalysisRequest :=
  { start_date := 100, end_date := 0, analysis_type := "suspicious_patterns",
    entity_types := none, threshold_amount := none, confidence_threshold := some 1 }

/-- A request matching the window [0, 1000] with no amount threshold. -/
def openRequest : BatchAnalysisRequest :=
  { start_date := 0, end_date := 1000, analysis_type := "suspicious_patterns",
    entity_types := none, threshold_amount := none, confidence_threshold := some 1 }

/-- The filter selecting the rapid-succession findings attributed to sender `s`. -/
def isRapidFor (s : Nat) (p : PatternFinding) : Bool :=
  decide (p.type = PatternType.rapid_succession) && decide (p.entity_id = some s)

lemma insertByTime_perm (t : Transaction) (l : List Transaction) :
    (insertByTime t l).Perm (t :: l) := by
  induction l with
  | nil => exact List.Perm.refl _
  | cons u us ih =>
    unfold insertByTime
    split
    · exact List.Perm.refl _
    · exact (ih.cons u).trans (List.Perm.swap t u us)

lemma sortByTimestamp_perm (l : List Transaction) : (sortByTimestamp l).Perm l := by
  induction l with
  | nil => exact List.Perm.refl _
  | cons t ts ih => exact (insertByTime_perm t (sortByTimestamp ts)).trans (ih.cons t)

lemma length_sortByTimestamp (l : List Transaction) :
    (sortByTimestamp l).length = l.length :=
  (sortByTimestamp_perm l).length_eq

lemma countP_sortByTimestamp (p : Transaction → Bool) (l : List Transaction) :
    (sortByTimestamp l).countP p = l.countP p :=
  (sortByTimestamp_perm l).countP_eq p

lemma mem_dedupFirstAux {x : Nat} : ∀ (l seen : List Nat),
    (x ∈ dedupFirstAux seen l ↔ x ∈ l ∧ x ∉ seen)
  | [], seen => by simp [dedupFirstAux]
  | a :: as, seen => by
    by_cases h : a ∈ seen
    · rw [dedupFirstAux, if_pos h, mem_dedupFirstAux as seen, List.mem_cons]
      constructor
      · rintro ⟨h1, h2⟩
        exact ⟨Or.inr h1, h2⟩
      · rintro ⟨h1 | h1, h2⟩
        · exact absurd (h1 ▸ h) h2
        · exact ⟨h1, h2⟩
    · rw [dedupFirstAux, if_neg h, List.mem_cons, List.mem_cons,
        mem_dedupFirstAux as (a :: seen), List.mem_cons]
      constructor
      · rintro (rfl | ⟨h1, h2⟩)
        · exact ⟨Or.inl rfl, h⟩
        · exact ⟨Or.inr h1, fun hx => h2 (Or.inr hx)⟩
      · rintro ⟨rfl | h1, h2⟩
        · exact Or.inl rfl
        · by_cases hxa : x = a
          · exact Or.inl hxa
          · exact Or.inr ⟨h1, fun hx => hx.elim hxa h2⟩

lemma nodup_dedupFirstAux : ∀ (l seen : List Nat), (dedupFirstAux seen l).Nodup
  | [], seen => by simp [dedupFirstAux]
  | a :: as, seen => by
    by_cases h : a ∈ seen
    · rw [dedupFirstAux, if_pos h]
      exact nodup_dedupFirstAux as seen
    · rw [dedupFirstAux, if_neg h]
      refine List.nodup_cons.2 ⟨?_, nodup_dedupFirstAux as (a :: seen)⟩
      intro hmem
      exact ((mem_dedupFirstAux as (a :: seen)).1 hmem).2 (List.mem_cons_self a seen)

lemma mem_dedupFirst {x : Nat} {l : List Nat} : x ∈ dedupFirst l ↔ x ∈ l := by
  unfold dedupFirst
  rw [mem_dedupFirstAux]
  simp

lemma nodup_dedupFirst (l : List Nat) : (dedupFirst l).Nodup := nodup_dedupFirstAux l []

lemma rapidFinding_eq_some {df : List Transaction} {s : Nat} {p : PatternFinding}
    (h : rapidFinding df s = some p) :
    5 ≤ (senderTxns df s).length ∧ 3 ≤ rapidGapCount (senderTxns df s) ∧
      p = { type := PatternType.rapid_succession
            entity_id := some s
            count := rapidGapCount (senderTxns df s)
            percentage := none
            risk_score := min (9/10) ((rapidGapCount (senderTxns df s) : ℚ) * (2/10)) } := by
  unfold rapidFinding at h
  split at h
  · split at h
    · rename_i h1 h2
      exact ⟨h1, h2, (Option.some.inj h).symm⟩
    · exact Option.noConfusion h
  · exact Option.noConfusion h

lemma filter_isRapidFor_not_mem (df : List Transaction) (s : Nat) :
    ∀ (l : List Nat), s ∉ l →
      (l.filterMap (rapidFinding df)).filter (isRapidFor s) = []
  | [], _ => rfl
  | a :: as, hs => by
    have hsa : s ≠ a := fun e => hs (e ▸ List.mem_cons_self a as)
    have hs' : s ∉ as := fun e => hs (List.mem_cons_of_mem _ e)
    cases hfa : rapidFinding df a with
    | none =>
      rw [List.filterMap_cons_none hfa]
      exact filter_isRapidFor_not_mem df s as hs'
    | some p =>
      have hp := (rapidFinding_eq_some hfa).2.2
      have hpa : ¬ (isRapidFor s p = true) := by
        rw [hp]
        simp only [isRapidFor, Bool.and_eq_true, decide_eq_true_eq]
        rintro ⟨-, h2⟩
        exact hsa (Option.some.inj h2).symm
      rw [List.filterMap_cons_some hfa, List.filter_cons_of_neg hpa]
      exact filter_isRapidFor_not_mem df s as hs'

lemma filter_isRapidFor_mem (df : List Transaction) (s : Nat) :
    ∀ (l : List Nat), l.Nodup → s ∈ l →
      (l.filterMap (rapidFinding df)).filter (isRapidFor s) = (rapidFinding df s).toList
  | [], _, hs => absurd hs (List.not_mem_nil s)
  | a :: as, hnd, hs => by
    rcases List.mem_cons.1 hs with rfl | hs'
    · have hnotin : s ∉ as := (List.nodup_cons.1 hnd).1
      cases hfa : rapidFinding df s with
      | none =>
        rw [List.filterMap_cons_none hfa, filter_isRapidFor_not_mem df s as hnotin]
        rfl
      | some p =>
        have hp := (rapidFinding_eq_some hfa).2.2
        have hpa : isRapidFor s p = true := by
          rw [hp]
          simp [isRapidFor]
        rw [List.filterMap_cons_some hfa, List.filter_cons_of_pos hpa,
          filter_isRapidFor_not_mem df s as hnotin]
        rfl
    · have hna : s ≠ a := by
        rintro rfl
        exact (List.nodup_cons.1 hnd).1 hs'
      cases hfa : rapidFinding df a with
      | none =>
        rw [List.filterMap_cons_none hfa]
        exact filter_isRapidFor_mem df s as (List.nodup_cons.1 hnd).2 hs'
      | some p =>
        have hp := (rapidFinding_eq_some hfa).2.2
        have hpa : ¬ (isRapidFor s p = true) := by
          rw [hp]
          simp only [isRapidFor, Bool.and_eq_true, decide_eq_true_eq]
          rintro ⟨-, h2⟩
          exact hna (Option.some.inj h2).symm
        rw [List.filterMap_cons_some hfa, List.filter_cons_of_neg hpa]
        exact filter_isRapidFor_mem df s as (List.nodup_cons.1 hnd).2 hs'

lemma roundFindings_no_rapid (df : List Transaction) (s : Nat) :
    (roundFindings df).filter (isRapidFor s) = [] := by
  unfold roundFindings
  split
  · simp [isRapidFor]
  · rfl

lemma structuringFindings_no_rapid (df : List Transaction) (s : Nat) :
    (structuringFindings df).filter (isRapidFor s) = [] := by
  unfold structuringFindings
  split
  · simp [isRapidFor]
  · rfl

lemma rapidFindings_filter_type (df : List Transaction) (T : PatternType)
    (hT : T ≠ PatternType.rapid_succession) :
    (rapidFindings df).filter (fun p => decide (p.type = T)) = [] := by
  rw [List.filter_eq_nil_iff]
  intro p hp
  obtain ⟨s, -, hfa⟩ := List.mem_filterMap.1 hp
  obtain ⟨-, -, rfl⟩ := rapidFinding_eq_some hfa
  simp only [decide_eq_true_eq]
  exact fun e => hT e.symm

lemma roundFindings_filter_type (df : List Transaction) (T : PatternType)
    (hT : T ≠ PatternType.round_number_bias) :
    (roundFindings df).filter (fun p => decide (p.type = T)) = [] := by
  unfold roundFindings
  split
  · rw [List.filter_cons_of_neg]
    · rfl
    · simp only [decide_eq_true_eq]
      exact fun e => hT e.symm
  · rfl

lemma structuringFindings_filter_type (df : List Transaction) (T : PatternType)
    (hT : T ≠ PatternType.potential_structuring) :
    (structuringFindings df).filter (fun p => decide (p.type = T)) = [] := by
  unfold structuringFindings
  split
  · rw [List.filter_cons_of_neg]
    · rfl
    · simp only [decide_eq_true_eq]
      exact fun e => hT e.symm
  · rfl

/-- C1: for every transaction set and every sender `s` with at least 5
transactions (in the timestamp-sorted frame), `detect` emits exactly one
rapid-succession finding for `s` if and only if the number of consecutive
gaps strictly below 300 seconds among that sender's time-sorted transactions
is at least 3, and that finding carries `count` equal to the rapid-gap count
and `risk_score = min(0.9, count * 0.2)`. -/
theorem rapid_succession_rule (txns : List Transaction) (s : Nat)
    (h : 5 ≤ (senderTxns (sortByTimestamp txns) s).length) :
    (detect txns).filter (isRapidFor s)
      = if 3 ≤ rapidGapCount (senderTxns (sortByTimestamp txns) s) then
          [{ type := PatternType.rapid_succession
             entity_id := some s
             count := rapidGapCount (senderTxns (sortByTimestamp txns) s)
             percentage := none
             risk_score :=
               min (9/10)
                 ((rapidGapCount (senderTxns (sortByTimestamp txns) s) : ℚ) * (2/10)) }]
        else [] := by
  have hne : senderTxns (sortByTimestamp txns) s ≠ [] := by
    intro e
    rw [e] at h
    simp at h
  obtain ⟨t, ht⟩ := List.exists_mem_of_ne_nil _ hne
  obtain ⟨htdf, hts⟩ := List.mem_filter.1 ht
  have hmap : s ∈ (sortByTimestamp txns).map (·.sender_id) :=
    List.mem_map.2 ⟨t, htdf, of_decide_eq_true hts⟩
  have hmem : s ∈ dedupFirst ((sortByTimestamp txns).map (·.sender_id)) :=
    mem_dedupFirst.2 hmap
  unfold detect rapidFindings
  rw [List.filter_append, List.filter_append,
    filter_isRapidFor_mem _ s _ (nodup_dedupFirst _) hmem,
    roundFindings_no_rapid, structuringFindings_no_rapid,
    List.append_nil, List.append_nil]
  unfold rapidFinding
  rw [if_pos h]
  by_cases h3 : 3 ≤ rapidGapCount (senderTxns (sortByTimestamp txns) s)
  · rw [if_pos h3, if_pos h3]
    rfl
  · rw [if_neg h3, if_neg h3]
    rfl

/-- Witness for C1: the sender with 5 transactions 100 seconds apart gets the
single finding with `count = 4` and `risk_score = 0.8`; the sender with only 2
rapid gaps gets no finding. -/
theorem rapid_succession_rule_witness :
    (5 ≤ (senderTxns (sortByTimestamp demoRapid) 7).length
      ∧ (detect demoRapid).filter (isRapidFor 7)
          = [{ type := PatternType.rapid_succession, entity_id := some 7, count := 4,
               percentage := none, risk_score := 8/10 }])
    ∧ (5 ≤ (senderTxns (sortByTimestamp demoSlow) 7).length
      ∧ (detect demoSlow).filter (isRapidFor 7) = []) :=
  ⟨⟨by decide, (rapid_succession_rule demoRapid 7 (by decide)).trans (by decide)⟩,
   ⟨by decide, (rapid_succession_rule demoSlow 7 (by decide)).trans (by decide)⟩⟩

/-- C2: a transaction counts toward `potential_structuring` exactly when its
amount lies in `[10000 * 0.9, 10000) = [9000, 10000)` (9000 counts, 10000 and
8999.99 do not), and `detect` emits one `potential_structuring` finding with
`risk_score = 0.8` and `count` equal to the number of such transactions if and
only if that count is positive. -/
theorem structuring_band_rule (txns : List Transaction) (a : ℚ) :
    (inStructuringBand a = (decide ((9000 : ℚ) ≤ a) && decide (a < (10000 : ℚ))))
    ∧ inStructuringBand 9000 = true
    ∧ inStructuringBand 10000 = false
    ∧ inStructuringBand (899999/100) = false
    ∧ ((detect txns).filter (fun p => decide (p.type = PatternType.potential_structuring))
        = if 0 < txns.countP (fun t => inStructuringBand t.amount) then
            [{ type := PatternType.potential_structuring
               entity_id := none
               count := txns.countP (fun t => inStructuringBand t.amount)
               percentage := none
               risk_score := 8/10 }]
          else []) := by
  refine ⟨?_, by decide, by decide, by decide, ?_⟩
  · unfold inStructuringBand
    rw [show structuring_threshold * (9/10) = (9000 : ℚ) from by
      norm_num [structuring_threshold]]
    rfl
  · have hcount : structuringCount (sortByTimestamp txns)
        = txns.countP (fun t => inStructuringBand t.amount) := by
      unfold structuringCount
      rw [← List.countP_eq_length_filter]
      exact countP_sortByTimestamp _ _
    unfold detect
    rw [List.filter_append, List.filter_append,
      rapidFindings_filter_type _ _ (by decide),
      roundFindings_filter_type _ _ (by decide),
      List.nil_append, List.nil_append]
    unfold structuringFindings
    rw [hcount]
    split
    · simp
    · rfl

/-- C3: `detect` emits one `round_number_bias` finding if and only if the
number of transactions whose amount is an exact multiple of 1000 strictly
exceeds 10% of the transaction count, with `count` that number,
`percentage = round(count/total*100, 2)` and `risk_score = 0.6`; with 100
transactions of which exactly 10 are multiples of 1000 no finding fires, and
with 11 the finding fires with `percentage = 11.0`. -/
theorem round_number_bias_rule (txns : List Transaction) :
    ((detect txns).filter (fun p => decide (p.type = PatternType.round_number_bias))
      = if (txns.length : ℚ) * (1/10) < ((txns.countP fun t => isRoundAmount t.amount) : ℚ) then
          [{ type := PatternType.round_number_bias
             entity_id := none
             count := txns.countP fun t => isRoundAmount t.amount
             percentage := some (roundTo 2
               (((txns.countP fun t => isRoundAmount t.amount) : ℚ) / (txns.length : ℚ) * 100))
             risk_score := 6/10 }]
        else [])
    ∧ (detect (demoRound 10)).filter
        (fun p => decide (p.type = PatternType.round_number_bias)) = []
    ∧ (detect (demoRound 11)).filter
        (fun p => decide (p.type = PatternType.round_number_bias))
        = [{ type := PatternType.round_number_bias, entity_id := none, count := 11,
             percentage := some 11, risk_score := 6/10 }] := by
  refine ⟨?_, by decide, by decide⟩
  have hcount : roundCount (sortByTimestamp txns)
      = txns.countP fun t => isRoundAmount t.amount := by
    unfold roundCount
    rw [← List.countP_eq_length_filter]
    exact countP_sortByTimestamp _ _
  unfold detect
  rw [List.filter_append, List.filter_append,
    rapidFindings_filter_type _ _ (by decide),
    structuringFindings_filter_type _ _ (by decide),
    List.nil_append, List.append_nil]
  unfold roundFindings
  rw [hcount, length_sortByTimestamp]
  split
  · simp
  · rfl

/-- C4: the aggregate risk is the arithmetic mean of the findings' risk
scores, exactly 0 on the empty list; findings scored 0.8, 0.6, 0.8 round to
0.733; and the result's `risk_score` field is the mean rounded to 3 decimals. -/
theorem risk_aggregation_rule (findings : List PatternFinding) (r : BatchAnalysisRequest)
    (store : List Transaction) (analysisId : String) (createdAt : ℚ) :
    (aggregate findings
        = if findings.isEmpty then 0
          else (findings.map (·.risk_score)).sum / (findings.length : ℚ))
    ∧ aggregate [] = 0
    ∧ roundTo 3 (aggregate [demoFinding (8/10), demoFinding (6/10), demoFinding (8/10)])
        = 733/1000
    ∧ (analyze_suspicious_patterns r store analysisId createdAt).risk_score
        = (if (fetchTransactions r store).isEmpty then 0
           else roundTo 3 (aggregate (detect (fetchTransactions r store)))) := by
  refine ⟨rfl, rfl, by decide, ?_⟩
  unfold analyze_suspicious_patterns
  by_cases h : (fetchTransactions r store).isEmpty
  · simp [h, emptyResult]
  · simp [h]

/-- C5: the recommendations come in fixed order — exactly one of the two
risk-banner lines (immediate investigation iff `risk > 0.7`, otherwise
enhanced monitoring iff `risk > 0.5`), then the rapid-transaction line iff a
`rapid_succession` finding is present, then the structuring line iff a
`potential_structuring` finding is present; at risk 0.75 the monitoring line
never appears and the immediate line appears exactly once. -/
theorem recommendation_rule (overall_risk : ℚ) (patterns : List PatternFinding) :
    (recommend overall_risk patterns
      = (if (7:ℚ)/10 < overall_risk then [immediateLine]
         else if (1:ℚ)/2 < overall_risk then [monitoringLine]
         else [])
        ++ (if patterns.any fun p => decide (p.type = PatternType.rapid_succession) then
              [rapidReviewLine] else [])
        ++ (if patterns.any fun p => decide (p.type = PatternType.potential_structuring) then
              [structuringInvLine] else []))
    ∧ (recommend ((3:ℚ)/4) patterns).countP (fun line => line == monitoringLine) = 0
    ∧ (recommend ((3:ℚ)/4) patterns).countP (fun line => line == immediateLine) = 1 := by
  refine ⟨rfl, ?_, ?_⟩
  all_goals
    unfold recommend
    rw [if_pos (by norm_num : (7:ℚ)/10 < (3:ℚ)/4)]
    cases (patterns.any fun p => decide (p.type = PatternType.rapid_succession)) <;>
      cases (patterns.any fun p => decide (p.type = PatternType.potential_structuring)) <;>
        decide

/-- C6: whenever the fetched transaction set is empty, the analysis returns
the zero-valued success result (`total_entities = 0`, `flagged_entities = 0`,
`suspicious_transactions = 0`, `risk_score = 0`, empty lists) without running
any detection rule. -/
theorem empty_input_short_circuit (r : BatchAnalysisRequest) (store : List Transaction)
    (analysisId : String) (createdAt : ℚ) (h : fetchTransactions r store = []) :
    analyze_suspicious_patterns r store analysisId createdAt =
      { analysis_id := analysisId
        analysis_type := "suspicious_patterns"
        start_date := r.start_date
        end_date := r.end_date
        total_entities := 0
        flagged_entities := 0
        suspicious_transactions := 0
        risk_score := 0
        patterns_detected := []
        recommendations := []
        created_at := createdAt } := by
  unfold analyze_suspicious_patterns
  rw [h]
  rfl

/-- Witness for C6: a store whose only transaction lies outside the request
window fetches empty and yields the zero-valued success result. -/
theorem empty_input_short_circuit_witness :
    fetchTransactions openRequest [⟨1, 1, 2, 500, 5000⟩] = []
    ∧ analyze_suspicious_patterns openRequest [⟨1, 1, 2, 500, 5000⟩] "batch_a" 42 =
        { analysis_id := "batch_a", analysis_type := "suspicious_patterns",
          start_date := openRequest.start_date, end_date := openRequest.end_date,
          total_entities := 0, flagged_entities := 0, suspicious_transactions := 0,
          risk_score := 0, patterns_detected := [], recommendations := [],
          created_at := 42 } :=
  ⟨by decide, empty_input_short_circuit openRequest _ "batch_a" 42 (by decide)⟩

/-- C7 (counterexample to "requests with `end_date < start_date` are rejected
before any fetch"): `badRequest` has `end_date < start_date`, passes the only
validation the source performs (the `analysis_type` regex), and the analysis
returns a zero-valued success result. -/
theorem validation_claim_counterexample :
    badRequest.end_date < badRequest.start_date
    ∧ validRequest badRequest = true
    ∧ analyze_suspicious_patterns badRequest [⟨1, 1, 2, 500, 50⟩] "batch_x" 0
        = emptyResult badRequest "batch_x" 0 :=
  ⟨by decide, by decide, by decide⟩

/-- C7 (amended): no date-order validation exists — request validity is
exactly the `analysis_type` check, and a request with `end_date < start_date`
fetches nothing (`BETWEEN` with reversed bounds matches no row) and returns
the zero-valued success result instead of a validation error. -/
theorem end_before_start_not_rejected (r : BatchAnalysisRequest) (store : List Transaction)
    (analysisId : String) (createdAt : ℚ) (h : r.end_date < r.start_date) :
    validRequest r = validAnalysisTypes.contains r.analysis_type
    ∧ fetchTransactions r store = []
    ∧ analyze_suspicious_patterns r store analysisId createdAt
        = emptyResult r analysisId createdAt := by
  have hfetch : fetchTransactions r store = [] := by
    unfold fetchTransactions
    rw [List.filter_eq_nil_iff]
    intro t ht
    simp only [Bool.and_eq_true, decide_eq_true_eq, not_and]
    rintro ⟨h1, h2⟩
    linarith
  refine ⟨rfl, hfetch, ?_⟩
  unfold analyze_suspicious_patterns
  rw [hfetch]
  rfl

/-- Witness for the amended C7 at the concrete `badRequest`. -/
theorem end_before_start_not_rejected_witness :
    badRequest.end_date < badRequest.start_date
    ∧ (validRequest badRequest = validAnalysisTypes.contains badRequest.analysis_type
       ∧ fetchTransactions badRequest [⟨1, 1, 2, 500, 50⟩] = []
       ∧ analyze_suspicious_patterns badRequest [⟨1, 1, 2, 500, 50⟩] "batch_y" 0
           = emptyResult badRequest "batch_y" 0) :=
  ⟨by decide, end_before_start_not_rejected badRequest _ "batch_y" 0 (by decide)⟩

lemma mem_roundFindings_fields {df : List Transaction} {p : PatternFinding}
    (hp : p ∈ roundFindings df) :
    p.type = PatternType.round_number_bias ∧ p.risk_score = 6/10 := by
  unfold roundFindings at hp
  split at hp
  · rw [List.mem_singleton.1 hp]
    exact ⟨rfl, rfl⟩
  · exact absurd hp (List.not_mem_nil p)

lemma mem_structuringFindings_fields {df : List Transaction} {p : PatternFinding}
    (hp : p ∈ structuringFindings df) :
    p.type = PatternType.potential_structuring ∧ p.risk_score = 8/10 := by
  unfold structuringFindings at hp
  split at hp
  · rw [List.mem_singleton.1 hp]
    exact ⟨rfl, rfl⟩
  · exact absurd hp (List.not_mem_nil p)

lemma mem_rapidFindings_bounds {df : List Transaction} {p : PatternFinding}
    (hp : p ∈ rapidFindings df) :
    p.type = PatternType.rapid_succession ∧ 3/5 ≤ p.risk_score ∧ p.risk_score ≤ 9/10 := by
  obtain ⟨s, -, hfa⟩ := List.mem_filterMap.1 hp
  obtain ⟨-, h3, rfl⟩ := rapidFinding_eq_some hfa
  refine ⟨rfl, ?_, min_le_left _ _⟩
  apply le_min
  · norm_num
  · have h3q : (3 : ℚ) ≤ (rapidGapCount (senderTxns df s) : ℚ) := by exact_mod_cast h3
    have := mul_le_mul_of_nonneg_right h3q (show (0:ℚ) ≤ 2/10 by norm_num)
    linarith

lemma detect_risk_bounds {txns : List Transaction} {p : PatternFinding}
    (hp : p ∈ detect txns) : 3/5 ≤ p.risk_score ∧ p.risk_score ≤ 9/10 := by
  unfold detect at hp
  rw [List.mem_append, List.mem_append] at hp
  rcases hp with (hp | hp) | hp
  · exact (mem_rapidFindings_bounds hp).2
  · rw [(mem_roundFindings_fields hp).2]
    constructor <;> norm_num
  · rw [(mem_structuringFindings_fields hp).2]
    constructor <;> norm_num

lemma aggregate_bounds {findings : List PatternFinding} {lo hi : ℚ}
    (hne : findings ≠ [])
    (hb : ∀ p ∈ findings, lo ≤ p.risk_score ∧ p.risk_score ≤ hi) :
    lo ≤ aggregate findings ∧ aggregate findings ≤ hi := by
  have hlen0 : 0 < findings.length := List.length_pos.2 hne
  have hlen : (0 : ℚ) < (findings.length : ℚ) := by exact_mod_cast hlen0
  have hempty : findings.isEmpty = false := by
    cases findings
    · exact absurd rfl hne
    · rfl
  unfold aggregate
  rw [hempty, if_neg (by simp)]
  constructor
  · rw [le_div_iff₀ hlen]
    have hsum : (findings.map (·.risk_score)).length • lo
        ≤ (findings.map (·.risk_score)).sum :=
      List.card_nsmul_le_sum _ _ (fun x hx => by
        obtain ⟨p, hp, rfl⟩ := List.mem_map.1 hx
        exact (hb p hp).1)
    rw [List.length_map, nsmul_eq_mul] at hsum
    calc lo * (findings.length : ℚ) = (findings.length : ℚ) * lo := mul_comm _ _
      _ ≤ _ := hsum
  · rw [div_le_iff₀ hlen]
    have hsum : (findings.map (·.risk_score)).sum
        ≤ (findings.map (·.risk_score)).length • hi :=
      List.sum_le_card_nsmul _ _ (fun x hx => by
        obtain ⟨p, hp, rfl⟩ := List.mem_map.1 hx
        exact (hb p hp).2)
    rw [List.length_map, nsmul_eq_mul] at hsum
    calc (findings.map (·.risk_score)).sum ≤ (findings.length : ℚ) * hi := hsum
      _ = hi * (findings.length : ℚ) := mul_comm _ _

lemma roundHalfEven_nonneg {q : ℚ} (h : 0 ≤ q) : 0 ≤ roundHalfEven q := by
  have h0 : (0:ℤ) ≤ ⌊q⌋ := Int.floor_nonneg.2 h
  unfold roundHalfEven
  split
  · exact h0
  · split
    · omega
    · split
      · exact h0
      · omega

lemma roundHalfEven_le {q : ℚ} {n : ℤ} (h : q ≤ (n : ℚ)) : roundHalfEven q ≤ n := by
  have hfl : ⌊q⌋ ≤ n := by
    have := Int.floor_mono h
    rwa [Int.floor_intCast] at this
  have hflq : (⌊q⌋ : ℚ) ≤ q := Int.floor_le q
  unfold roundHalfEven
  split
  · exact hfl
  · rename_i h1
    split
    · rename_i h2
      have hq : (⌊q⌋ : ℚ) < (n : ℚ) := by linarith
      have : ⌊q⌋ < n := by exact_mod_cast hq
      omega
    · rename_i h2
      split
      · exact hfl
      · have hq2 : q - (⌊q⌋ : ℚ) = 1/2 := le_antisymm (not_lt.1 h2) (not_lt.1 h1)
        have hq : (⌊q⌋ : ℚ) < (n : ℚ) := by linarith
        have : ⌊q⌋ < n := by exact_mod_cast hq
        omega

lemma roundTo_nonneg {n : Nat} {q : ℚ} (h : 0 ≤ q) : 0 ≤ roundTo n q := by
  unfold roundTo
  apply div_nonneg
  · have : (0:ℤ) ≤ roundHalfEven (q * 10 ^ n) := roundHalfEven_nonneg (by positivity)
    exact_mod_cast this
  · positivity

lemma roundTo_le_one {n : Nat} {q : ℚ} (h : q ≤ 1) : roundTo n q ≤ 1 := by
  unfold roundTo
  rw [div_le_one (by positivity)]
  have hpow : (0:ℚ) < 10 ^ n := by positivity
  have h10 : q * 10 ^ n ≤ (((10:ℤ) ^ n : ℤ) : ℚ) := by
    push_cast
    nlinarith
  have hle := roundHalfEven_le h10
  have : ((roundHalfEven (q * 10 ^ n) : ℤ) : ℚ) ≤ (((10:ℤ) ^ n : ℤ) : ℚ) := by
    exact_mod_cast hle
  push_cast at this
  linarith

/-- C8: every emitted finding has its risk score in [0, 1] (indeed in
[0.6, 0.9]), and the aggregate risk — before and after rounding to 3
decimals — also lies in [0, 1]. -/
theorem risk_score_range (txns : List Transaction) :
    ((detect txns).all fun p =>
        decide (0 ≤ p.risk_score) && decide (p.risk_score ≤ 1) &&
          (decide ((3:ℚ)/5 ≤ p.risk_score) && decide (p.risk_score ≤ 9/10))) = true
    ∧ 0 ≤ aggregate (detect txns) ∧ aggregate (detect txns) ≤ 1
    ∧ 0 ≤ roundTo 3 (aggregate (detect txns))
    ∧ roundTo 3 (aggregate (detect txns)) ≤ 1 := by
  have hagg : 0 ≤ aggregate (detect txns) ∧ aggregate (detect txns) ≤ 1 := by
    rcases eq_or_ne (detect txns) [] with hnil | hne
    · rw [hnil]
      constructor <;> norm_num [aggregate]
    · have hb := aggregate_bounds hne (fun p hp => detect_risk_bounds hp)
      constructor
      · linarith [hb.1]
      · linarith [hb.2]
  refine ⟨?_, hagg.1, hagg.2, roundTo_nonneg hagg.1, roundTo_le_one hagg.2⟩
  rw [List.all_eq_true]
  intro p hp
  have hb := detect_risk_bounds hp
  have h1 : 0 ≤ p.risk_score := by linarith [hb.1]
  have h2 : p.risk_score ≤ 1 := by linarith [hb.2]
  simp [h1, h2, hb.1, hb.2]

/-- C9: two runs of the pipeline on the same request and store produce
identical findings, risk score, recommendations and counts — only
`analysis_id` and `created_at` can differ. -/
theorem pipeline_deterministic (r : BatchAnalysisRequest) (store : List Transaction)
    (id1 id2 : String) (t1 t2 : ℚ) :
    (analyze_suspicious_patterns r store id1 t1).patterns_detected
        = (analyze_suspicious_patterns r store id2 t2).patterns_detected
    ∧ (analyze_suspicious_patterns r store id1 t1).risk_score
        = (analyze_suspicious_patterns r store id2 t2).risk_score
    ∧ (analyze_suspicious_patterns r store id1 t1).recommendations
        = (analyze_suspicious_patterns r store id2 t2).recommendations
    ∧ (analyze_suspicious_patterns r store id1 t1).total_entities
        = (analyze_suspicious_patterns r store id2 t2).total_entities
    ∧ (analyze_suspicious_patterns r store id1 t1).flagged_entities
        = (analyze_suspicious_patterns r store id2 t2).flagged_entities
    ∧ (analyze_suspicious_patterns r store id1 t1).suspicious_transactions
        = (analyze_suspicious_patterns r store id2 t2).suspicious_transactions
    ∧ (analyze_suspicious_patterns r store id1 t1).analysis_type
        = (analyze_suspicious_patterns r store id2 t2).analysis_type
    ∧ (analyze_suspicious_patterns r store id1 t1).start_date
        = (analyze_suspicious_patterns r store id2 t2).start_date
    ∧ (analyze_suspicious_patterns r store id1 t1).end_date
        = (analyze_suspicious_patterns r store id2 t2).end_date := by
  unfold analyze_suspicious_patterns
  by_cases h : (fetchTransactions r store).isEmpty
  · simp [h, emptyResult]
  · simp [h]

lemma recommend_ne_nil {risk : ℚ} {ps : List PatternFinding} (h : (1:ℚ)/2 < risk) :
    recommend risk ps ≠ [] := by
  unfold recommend
  by_cases h7 : (7:ℚ)/10 < risk
  · rw [if_pos h7]
    simp
  · rw [if_neg h7, if_pos h]
    simp

/-- C10: the recommendation list is empty exactly when no finding was
emitted — any non-empty finding list has mean risk at least 0.6 > 0.5 and so
always triggers a risk-banner line. -/
theorem recommendations_empty_iff_no_findings (r : BatchAnalysisRequest)
    (store : List Transaction) (analysisId : String) (createdAt : ℚ) :
    (analyze_suspicious_patterns r store analysisId createdAt).recommendations = []
      ↔ (analyze_suspicious_patterns r store analysisId createdAt).patterns_detected = [] := by
  unfold analyze_suspicious_patterns
  by_cases h : (fetchTransactions r store).isEmpty
  · simp [h, emptyResult]
  · simp only [h, Bool.false_eq_true, if_false]
    rcases eq_or_ne (detect (fetchTransactions r store)) [] with hnil | hne
    · rw [hnil]
      constructor
      · intro
        rfl
      · intro
        norm_num [recommend, aggregate]
    · have hb := aggregate_bounds hne
        (fun p hp => detect_risk_bounds hp)
      have hhalf : (1:ℚ)/2 < aggregate (detect (fetchTransactions r store)) := by
        linarith [hb.1]
      constructor
      · intro he
        exact absurd he (recommend_ne_nil hhalf)
      · intro he
        exact absurd he hne

end BatchAnalysis
